import Mathlib

/-!
Shallow embedding of the node-drop/postgres package: the statement builder,
batch execution loop, credential connectivity self-test and table
introspection of `src/credentials/postgresDb.credentials.js`, with the
theorems that settle the specification claims about them.
-/

set_option autoImplicit false

deriving instance DecidableEq for Except

namespace PostgresNode

/-- Scalar values as they appear in a column-value map or a parameter list.
JavaScript distinguishes the empty string, `null` and `undefined`; the
filter in the insert/update cases drops exactly those three. -/
inductive Value where
  | vStr (s : String)
  | vNum (n : Int)
  | vBool (b : Bool)
  | vNull
  | vUndef
deriving DecidableEq, Repr

/-- The JS test `value !== "" && value !== null && value !== undefined`,
negated: values dropped by the insert/update filter. -/
def Value.isEmptyish : Value → Bool
  | .vStr ("") => true
  | .vNull => true
  | .vUndef => true
  | _ => false

/-- A result row, as a record mapping. -/
abbrev Row := List (String × Value)

/-- A built statement: SQL text plus the ordered parameter list
(`queryText` and `queryParams` in the source). -/
structure Stmt where
  text : String
  params : List Value
deriving DecidableEq, Repr

/-- JS `str.split(",")` over the character list: a comma ends the current
group; the result always has one more group than there are commas. -/
def splitCommaAux : List Char → List (List Char)
  | [] => [[]]
  | c :: cs =>
    let rest := splitCommaAux cs
    if c = ',' then [] :: rest
    else
      match rest with
      | [] => [[c]]
      | g :: gs => (c :: g) :: gs

/-- Drop leading whitespace characters. -/
def dropLeadingWs : List Char → List Char
  | [] => []
  | c :: cs => if c.isWhitespace then dropLeadingWs cs else c :: cs

/-- JS `str.trim()`: drop whitespace from both ends. -/
def jsTrim (s : String) : String :=
  String.mk (dropLeadingWs (dropLeadingWs s.data.reverse).reverse)

/-- Comma-split with trim, guarded by JS truthiness of the source string:
`if (paramsStr) queryParams = paramsStr.split(",").map((p) => p.trim())`. -/
def splitParams (s : String) : List String :=
  if s = "" then [] else (splitCommaAux s.data).map fun g => jsTrim (String.mk g)

/-- The insert/update filter over `Object.entries(data)`: keep entries whose
value is not the empty string, `null` or `undefined`, in iteration order. -/
def filterData (m : List (String × Value)) : List (String × Value) :=
  m.filter fun kv => !kv.2.isEmptyish

/-- Descriptor of the Execute Query operation: raw text and the
comma-separated parameter string. -/
structure ExecuteQueryDesc where
  query : String
  queryParams : String
deriving DecidableEq, Repr

/-- Descriptor of the Select operation. `limit` is the value of the numeric
`limit` node parameter; the JS code uses it only through truthiness and
string interpolation. -/
structure SelectDesc where
  table : String
  columns : String
  whereClause : String
  whereParams : String
  orderBy : String
  returnAll : Bool
  limit : Int
deriving DecidableEq, Repr

/-- Descriptor of the Insert operation; `columnsMap` is the resolved
column-value object in iteration order. -/
structure InsertDesc where
  table : String
  columnsMap : List (String × Value)
  returnFields : String
deriving DecidableEq, Repr

/-- Descriptor of the Update operation. -/
structure UpdateDesc where
  table : String
  columnsMap : List (String × Value)
  whereClause : String
  whereParams : String
  returnFields : String
deriving DecidableEq, Repr

/-- Descriptor of the Delete operation. -/
structure DeleteDesc where
  table : String
  whereClause : String
  whereParams : String
deriving DecidableEq, Repr

/-- Tagged union of the five operation shapes. -/
inductive OpDescriptor where
  | executeQuery (d : ExecuteQueryDesc)
  | select (d : SelectDesc)
  | insert (d : InsertDesc)
  | update (d : UpdateDesc)
  | delete (d : DeleteDesc)
deriving DecidableEq, Repr

/-- The validation failures the statement builder can raise (each is a
`throw new Error(...)` that happens before `pool.query`). -/
inductive BuildError where
  | insertNoData
  | updateNoData
  | updateWhereRequired
  | deleteWhereRequired
deriving DecidableEq, Repr

/-- The exact message text of each validation failure in the source. -/
def BuildError.message : BuildError → String
  | .insertNoData => "No data provided for insert. Please map at least one column."
  | .updateNoData => "No data provided for update. Please map at least one column."
  | .updateWhereRequired => "WHERE clause is required for UPDATE operation to prevent accidental updates"
  | .deleteWhereRequired => "WHERE clause is required for DELETE operation to prevent accidental deletion"

/-- Quoted column list: `columns.map(col => `"${col}"`).join(", ")`. -/
def quoteColumns (cols : List String) : String :=
  String.intercalate (", ") (cols.map fun c => "\"" ++ c ++ "\"")

/-- Placeholder list `$1, $2, ..., $n`. -/
def placeholderList (n : Nat) : String :=
  String.intercalate (", ") ((List.range n).map fun i => "$" ++ toString (i + 1))

/-- SET clause: `columns.map((col, i) => `"${col}" = $${i + 1}`).join(", ")`. -/
def setClause (cols : List String) : String :=
  String.intercalate (", ") (cols.enum.map fun p => "\"" ++ p.2 ++ "\" = $" ++ toString (p.1 + 1))

/-- Select text before the LIMIT clause: base, then WHERE and ORDER BY when
their strings are truthy. -/
def selectCore (d : SelectDesc) : String :=
  let columns := if d.columns = "" then ("*") else d.columns
  let t0 := "SELECT " ++ columns ++ " FROM " ++ d.table
  let t1 := if d.whereClause = "" then t0 else t0 ++ " WHERE " ++ d.whereClause
  if d.orderBy = "" then t1 else t1 ++ " ORDER BY " ++ d.orderBy

/-- Select parameters: the comma-split WHERE parameters, set only inside the
truthy-`where` branch. -/
def selectParams (d : SelectDesc) : List Value :=
  if d.whereClause = "" then [] else (splitParams d.whereParams).map Value.vStr

/-- The select case: `limit` is `returnAll ? null : limit` and the LIMIT
clause is appended under `if (limit)`, i.e. when that value is truthy. -/
def buildSelect (d : SelectDesc) : Stmt :=
  let lim : Int := if d.returnAll then 0 else d.limit
  ⟨if lim = 0 then selectCore d else selectCore d ++ " LIMIT " ++ toString lim,
   selectParams d⟩

/-- The insert case of `PostgresNode.execute`. -/
def buildInsert (d : InsertDesc) : Except BuildError Stmt :=
  let filtered := filterData d.columnsMap
  if filtered.isEmpty then .error .insertNoData
  else
    let cols := filtered.map Prod.fst
    let vals := filtered.map Prod.snd
    let returnFields := if d.returnFields = "" then ("*") else d.returnFields
    .ok ⟨"INSERT INTO " ++ d.table ++ " (" ++ quoteColumns cols ++ ") VALUES (" ++
          placeholderList vals.length ++ ") RETURNING " ++ returnFields,
         vals⟩

/-- The update case: the WHERE check comes first, then the empty-map check;
parameters are the SET values followed by the split WHERE parameters. -/
def buildUpdate (d : UpdateDesc) : Except BuildError Stmt :=
  if d.whereClause = "" then .error .updateWhereRequired
  else
    let filtered := filterData d.columnsMap
    if filtered.isEmpty then .error .updateNoData
    else
      let cols := filtered.map Prod.fst
      let vals := filtered.map Prod.snd
      let returnFields := if d.returnFields = "" then ("*") else d.returnFields
      .ok ⟨"UPDATE " ++ d.table ++ " SET " ++ setClause cols ++ " WHERE " ++
            d.whereClause ++ " RETURNING " ++ returnFields,
           vals ++ (splitParams d.whereParams).map Value.vStr⟩

/-- The delete case: WHERE is mandatory, no RETURNING clause. -/
def buildDelete (d : DeleteDesc) : Except BuildError Stmt :=
  if d.whereClause = "" then .error .deleteWhereRequired
  else .ok ⟨"DELETE FROM " ++ d.table ++ " WHERE " ++ d.whereClause,
            (splitParams d.whereParams).map Value.vStr⟩

/-- The executeQuery case: text verbatim, comma-split parameters. -/
def buildExecuteQuery (d : ExecuteQueryDesc) : Stmt :=
  ⟨d.query, (splitParams d.queryParams).map Value.vStr⟩

/-- Statement building for one operation descriptor: everything each case of
`PostgresNode.execute` does before its `pool.query` call. -/
def build : OpDescriptor → Except BuildError Stmt
  | .executeQuery d => .ok (buildExecuteQuery d)
  | .select d => .ok (buildSelect d)
  | .insert d => buildInsert d
  | .update d => buildUpdate d
  | .delete d => buildDelete d

/-- A field descriptor of a driver result: name and dataTypeID. -/
structure FieldInfo where
  name : String
  dataType : Nat
deriving DecidableEq, Repr

/-- Normalized driver result shape: rows, rowCount, command, fields. -/
structure ExecResult where
  rows : List Row
  rowCount : Nat
  command : String
  fields : List FieldInfo
deriving DecidableEq, Repr

/-- A driver-level failure reported by `pool.query`. -/
structure QueryError where
  message : String
deriving DecidableEq, Repr

/-- An error caught by the per-item catch block: either a validation failure
raised while building or a driver failure raised while executing. -/
inductive ItemError where
  | validation (e : BuildError)
  | query (e : QueryError)
deriving DecidableEq, Repr

/-- The `error.message` the catch block reads. -/
def ItemError.message : ItemError → String
  | .validation e => e.message
  | .query e => e.message

/-- The `error.toString()` the catch block stores as `errorDetails`; for a
JS `Error` this is the name-prefixed message. -/
def ItemError.details (e : ItemError) : String :=
  "Error: " ++ e.message

/-- The JSON pushed into `results` for one item: one shape per operation
plus the failure record of the continue-on-fail branch. -/
inductive ItemJson where
  | execQueryOut (rows : List Row) (rowCount : Nat) (command : String) (fields : List FieldInfo)
  | selectOut (rows : List Row) (rowCount : Nat)
  | insertOut (inserted : Option Row) (rowCount : Nat)
  | updateOut (updated : List Row) (rowCount : Nat)
  | deleteOut (rowCount : Nat)
  | errorOut (errorMessage : String) (errorDetails : String)
deriving DecidableEq, Repr

/-- How each operation case shapes the driver result it pushes. -/
def shapeResult (d : OpDescriptor) (r : ExecResult) : ItemJson :=
  match d with
  | .executeQuery _ => .execQueryOut r.rows r.rowCount r.command r.fields
  | .select _ => .selectOut r.rows r.rowCount
  | .insert _ => .insertOut r.rows.head? r.rowCount
  | .update _ => .updateOut r.rows r.rowCount
  | .delete _ => .deleteOut r.rowCount

/-- One item of the try block: build the statement, and only when building
succeeds send it through the driver (`exec` stands for `pool.query`). The
second component counts the queries sent to the driver for this item. -/
def processItem (exec : Stmt → Except QueryError ExecResult) (d : OpDescriptor) :
    Except ItemError ItemJson × Nat :=
  match build d with
  | .error e => (.error (.validation e), 0)
  | .ok st =>
    match exec st with
    | .error qe => (.error (.query qe), 1)
    | .ok r => (.ok (shapeResult d r), 1)

/-- The failure record pushed when `continueOnFail` swallows an error. -/
def errJson (e : ItemError) : ItemJson :=
  .errorOut e.message e.details

/-- The per-item loop of `PostgresNode.execute`, from start index `i` over
`n` remaining items: on success push the shaped result; on failure either
push the failure record (continue-on-fail) or abort with the error,
discarding the accumulated outcomes from the success return path. The
second component counts the items that entered the loop body. -/
def runLoop (step : Nat → Except ItemError ItemJson) (cof : Bool) :
    Nat → Nat → Except ItemError (List ItemJson) × Nat
  | _, 0 => (.ok [], 0)
  | i, n + 1 =>
    match step i with
    | .ok out =>
      let rest := runLoop step cof (i + 1) n
      (match rest.1 with
       | .ok outs => .ok (out :: outs)
       | .error e2 => .error e2, rest.2 + 1)
    | .error e =>
      if cof then
        let rest := runLoop step cof (i + 1) n
        (match rest.1 with
         | .ok outs => .ok (errJson e :: outs)
         | .error e2 => .error e2, rest.2 + 1)
      else (.error e, 1)

/-- One input item of the batch (its `json` payload; the operation
parameters are resolved per item index by the parameter source). -/
structure InputItem where
  json : List (String × Value)
deriving DecidableEq, Repr

/-- The node settings object; every field may be absent. -/
structure Settings where
  continueOnFail : Option Bool
  connectionTimeout : Option Nat
  ssl : Option Bool
deriving DecidableEq, Repr

/-- `this.settings?.continueOnFail ?? false`. -/
def effContinueOnFail (s : Option Settings) : Bool :=
  (s.bind Settings.continueOnFail).getD false

/-- `items.length > 0 ? items : [{ json: {} }]`: the number of items the
loop runs over. -/
def itemsToProcessCount (items : List InputItem) : Nat :=
  if items.length > 0 then items.length else 1

/-- What one batch run yields: the returned outcome sequence or the raised
error, the number of items that entered the loop, and the number of times
`pool.end` ran. -/
structure RunOutcome where
  result : Except ItemError (List ItemJson)
  processed : Nat
  poolEnds : Nat
deriving DecidableEq, Repr

/-- The batch-execution core of `PostgresNode.execute`: synthesize a default
item when the input is empty, run the loop under the continue-on-fail
setting, and release the pool exactly once in the `finally` block on both
the return and the raise path. -/
def executeNode (exec : Stmt → Except QueryError ExecResult) (settings : Option Settings)
    (resolveDesc : Nat → OpDescriptor) (items : List InputItem) : RunOutcome :=
  let cof := effContinueOnFail settings
  let r := runLoop (fun i => (processItem exec (resolveDesc i)).1) cof 0
    (itemsToProcessCount items)
  ⟨r.1, r.2, 1⟩

/-- Connection credentials `{host, port, database, user, password, ssl}`;
`port = 0` stands for the absent/falsy port that `data.port || 5432`
replaces. -/
structure Credentials where
  host : String
  port : Nat
  database : String
  user : String
  password : String
  ssl : Bool
deriving DecidableEq, Repr

/-- `data.port || 5432`. -/
def effPort (p : Nat) : Nat :=
  if p = 0 then 5432 else p

/-- The configuration handed to `new Pool({...})`: connection fields, the
ssl flag (`ssl ? {rejectUnauthorized: false} : false`), the connection
timeout and the pool size cap. -/
structure PoolConfig where
  host : String
  port : Nat
  database : String
  user : String
  password : String
  sslNoVerify : Bool
  connectionTimeoutMillis : Nat
  max : Nat
deriving DecidableEq, Repr

/-- A driver error as the catch blocks see it: `error.code` and
`error.message`. -/
structure DriverError where
  code : String
  message : String
deriving DecidableEq, Repr

/-- `this.settings?.ssl ?? credentials.ssl ?? false`. -/
def effSsl (s : Option Settings) (c : Credentials) : Bool :=
  (s.bind Settings.ssl).getD c.ssl

/-- Pool configuration of `loadOptions.getTables`: size-1 pool with
`this.settings?.connectionTimeout ?? 5000`. -/
def getTablesPoolConfig (s : Option Settings) (c : Credentials) : PoolConfig :=
  ⟨c.host, effPort c.port, c.database, c.user, c.password, effSsl s c,
   (s.bind Settings.connectionTimeout).getD 5000, 1⟩

/-- One entry of a dynamic dropdown (`{name, value, description}`). -/
structure LoadOption where
  name : String
  value : String
  description : String
deriving DecidableEq, Repr

/-- The diagnostic entry `getTables` returns when credentials are absent. -/
def noCredentialsOption : LoadOption :=
  ⟨"No credentials selected", "", "Please select PostgreSQL credentials first"⟩

/-- `loadOptions.getTables`: without usable credentials return the
no-credentials entry; otherwise run the catalog query through the driver
(`driver` stands for `pool.query` returning the table names) and either map
the rows to options or, in the catch block, return the single diagnostic
entry carrying the error message. Total: nothing escapes this boundary. -/
def getTables (s : Option Settings) (creds : Option Credentials)
    (driver : PoolConfig → Except DriverError (List String)) : List LoadOption :=
  match creds with
  | none => [noCredentialsOption]
  | some c =>
    if c.host = "" then [noCredentialsOption]
    else
      match driver (getTablesPoolConfig s c) with
      | .ok tables => tables.map fun t => ⟨t, t, "Table: " ++ t⟩
      | .error e => [⟨"Error loading tables - check credentials", "", e.message⟩]

/-- One row of the self-test query result; only the `version` column is
read by the success branch. -/
structure TestRow where
  version : String
deriving DecidableEq, Repr

/-- Outcome of the credential test: `{success, message}`. -/
structure TestResult where
  success : Bool
  message : String
deriving DecidableEq, Repr

/-- The query text of the connectivity self-test. -/
def testQueryText : String :=
  "SELECT NOW() as current_time, version() as version"

/-- The error-code translation of `PostgresDbCredentials.test`: each known
driver code gets its own message, anything else the generic fallback
`Connection failed: ...` with `error.message || "Unknown error"`. -/
def testErrorMessage (data : Credentials) (e : DriverError) : String :=
  if e.code = "ECONNREFUSED" then
    "Cannot connect to database server at " ++ data.host ++ ":" ++
      toString (effPort data.port) ++ ". Connection refused."
  else if e.code = "ENOTFOUND" then
    "Cannot resolve host: " ++ data.host ++ ". Please check the hostname."
  else if e.code = "ETIMEDOUT" then
    "Connection timeout to " ++ data.host ++ ":" ++ toString (effPort data.port) ++
      ". Please check firewall and network settings."
  else if e.code = "28P01" then
    "Authentication failed. Invalid username or password."
  else if e.code = "3D000" then
    "Database \"" ++ data.database ++ "\" does not exist."
  else if e.code = "28000" then
    "Authorization failed. User does not have access to this database."
  else if e.code = "08001" then
    "Unable to establish connection. Please check server settings."
  else
    "Connection failed: " ++ (if e.message = "" then ("Unknown error") else e.message)

/-- `PostgresDbCredentials.test`: reject incomplete credentials without
touching the driver; otherwise attempt the self-test query on a pool capped
at one connection with a 5000 ms timeout, and translate any driver error
through `testErrorMessage`. `extractVersion` stands for the regex match
`/PostgreSQL ([\d.]+)/` on the version string. The second component lists
the (pool configuration, query text) attempts sent to the driver. -/
def testConnection (extractVersion : String → Option String)
    (driver : PoolConfig → String → Except DriverError (List TestRow))
    (data : Credentials) : TestResult × List (PoolConfig × String) :=
  if data.host = "" ∨ data.database = "" ∨ data.user = "" ∨ data.password = "" then
    (⟨false, "Host, database, user, and password are required"⟩, [])
  else
    let cfg : PoolConfig := ⟨data.host, effPort data.port, data.database, data.user,
      data.password, data.ssl, 5000, 1⟩
    match driver cfg testQueryText with
    | .ok rows =>
      match rows with
      | [] => (⟨true, "Connection successful"⟩, [(cfg, testQueryText)])
      | r :: _ =>
        (⟨true, "Connected successfully to PostgreSQL " ++
            ((extractVersion r.version).getD ("Unknown")) ++ " at " ++ data.host ++ ":" ++
            toString (effPort data.port) ++ "/" ++ data.database⟩,
         [(cfg, testQueryText)])
    | .error e => (⟨false, testErrorMessage data e⟩, [(cfg, testQueryText)])

/-- Sample credentials used to instantiate closed statements. -/
def sampleCreds : Credentials :=
  ⟨"localhost", 5432, "mydb", "admin", "pw", false⟩

/-- Sanity check of the embedding against the Select round-trip example of
the specification. -/
theorem select_round_trip_example :
    build (.select ⟨"t", "*", "id = $1", "5", "", false, 10⟩)
      = .ok ⟨"SELECT * FROM t WHERE id = $1 LIMIT 10", [.vStr ("5")]⟩ := rfl

/-- Sanity check of the embedding against the Insert example of the
specification. -/
theorem insert_example :
    build (.insert ⟨"users", [("name", .vStr ("Jane")), ("email", .vStr ("jane@x.com"))], "*"⟩)
      = .ok ⟨"INSERT INTO users (\"name\", \"email\") VALUES ($1, $2) RETURNING *",
             [.vStr ("Jane"), .vStr ("jane@x.com")]⟩ := rfl

/-- The loop always runs at least one item. -/
theorem itemsToProcessCount_pos (items : List InputItem) : 0 < itemsToProcessCount items := by
  unfold itemsToProcessCount
  by_cases h : items.length > 0 <;> simp [h]

/-- With continue-on-fail off, the loop aborts at the first failing item:
with `k` leading successes and a failure at index `i + k`, the run raises
that error after entering the loop body exactly `k + 1` times. -/
theorem runLoop_abort (step : Nat → Except ItemError ItemJson) :
    ∀ (k i n : Nat), k < n →
      (∀ j, j < k → ∃ r, step (i + j) = .ok r) →
      ∀ e, step (i + k) = .error e →
      runLoop step false i n = (.error e, k + 1) := by
  intro k
  induction k with
  | zero =>
    intro i n hn hok e he
    match n, hn with
    | n + 1, _ =>
      rw [Nat.add_zero] at he
      simp [runLoop, he]
  | succ k ih =>
    intro i n hn hok e he
    match n, hn with
    | n + 1, hn =>
      obtain ⟨r, hr⟩ := hok 0 (Nat.succ_pos k)
      rw [Nat.add_zero] at hr
      have hrec := ih (i + 1) n (Nat.lt_of_succ_lt_succ hn)
        (fun j hj => by
          have h := hok (j + 1) (Nat.succ_lt_succ hj)
          rwa [show i + (j + 1) = (i + 1) + j by omega] at h)
        e (by rwa [show i + (k + 1) = (i + 1) + k by omega] at he)
      simp [runLoop, hr, hrec]

/-- Claim C1: every Update descriptor and every Delete descriptor with an
empty `where` clause fails statement building with the mandatory-WHERE
validation error, and no query is sent to the driver for that item. -/
theorem update_delete_empty_where_fails (u : UpdateDesc) (dl : DeleteDesc)
    (exec : Stmt → Except QueryError ExecResult)
    (hu : u.whereClause = "") (hd : dl.whereClause = "") :
    (processItem exec (.update u)).1 = .error (.validation .updateWhereRequired)
    ∧ (processItem exec (.update u)).2 = 0
    ∧ (processItem exec (.delete dl)).1 = .error (.validation .deleteWhereRequired)
    ∧ (processItem exec (.delete dl)).2 = 0 := by
  simp [processItem, build, buildUpdate, buildDelete, hu, hd]

/-- Witness for C1 at a concrete Update and Delete descriptor. -/
theorem update_delete_empty_where_fails_witness :
    (processItem (fun _ => .error ⟨"down"⟩)
        (.update ⟨"users", [("a", .vStr ("1"))], "", "", "*"⟩)).1
      = .error (.validation .updateWhereRequired)
    ∧ (processItem (fun _ => .error ⟨"down"⟩) (.delete ⟨"users", "", ""⟩)).1
      = .error (.validation .deleteWhereRequired) := by
  have h := update_delete_empty_where_fails ⟨"users", [("a", .vStr ("1"))], "", "", "*"⟩
    ⟨"users", "", ""⟩ (fun _ => .error ⟨"down"⟩) rfl rfl
  exact ⟨h.1, h.2.2.1⟩

/-- Claim C2: when the filtered column-value map is empty, Insert fails with
the no-data validation error and Update fails with a validation error —
the no-data one whenever its prior WHERE check passes — and in both cases
no query is sent to the driver. -/
theorem empty_filtered_map_fails (ins : InsertDesc) (u : UpdateDesc)
    (exec : Stmt → Except QueryError ExecResult)
    (hi : filterData ins.columnsMap = []) (hum : filterData u.columnsMap = []) :
    (processItem exec (.insert ins)).1 = .error (.validation .insertNoData)
    ∧ (processItem exec (.insert ins)).2 = 0
    ∧ (∃ e : BuildError, (processItem exec (.update u)).1 = .error (.validation e))
    ∧ (processItem exec (.update u)).2 = 0
    ∧ (u.whereClause ≠ "" →
        (processItem exec (.update u)).1 = .error (.validation .updateNoData)) := by
  refine ⟨?_, ?_, ?_, ?_, ?_⟩
  · simp [processItem, build, buildInsert, hi]
  · simp [processItem, build, buildInsert, hi]
  · by_cases hw : u.whereClause = ""
    · exact ⟨.updateWhereRequired, by simp [processItem, build, buildUpdate, hw]⟩
    · exact ⟨.updateNoData, by simp [processItem, build, buildUpdate, hw, hum]⟩
  · by_cases hw : u.whereClause = ""
    · simp [processItem, build, buildUpdate, hw]
    · simp [processItem, build, buildUpdate, hw, hum]
  · intro hw
    simp [processItem, build, buildUpdate, hw, hum]

/-- Witness for C2 at concrete Insert and Update descriptors whose maps
filter to empty. -/
theorem empty_filtered_map_fails_witness :
    (processItem (fun _ => .error ⟨"down"⟩)
        (.insert ⟨"users", [("a", .vStr ("")), ("b", .vNull)], "*"⟩)).1
      = .error (.validation .insertNoData)
    ∧ (processItem (fun _ => .error ⟨"down"⟩)
        (.update ⟨"users", [("a", .vUndef)], "id = $1", "7", "*"⟩)).1
      = .error (.validation .updateNoData) := by
  have h := empty_filtered_map_fails ⟨"users", [("a", .vStr ("")), ("b", .vNull)], "*"⟩
    ⟨"users", [("a", .vUndef)], "id = $1", "7", "*"⟩ (fun _ => .error ⟨"down"⟩) rfl rfl
  exact ⟨h.1, h.2.2.2.2 (by simp)⟩

/-- Counterexample to claim C3: a Select with `returnAll = false` and the
falsy limit 0 builds successfully — no ValidationError despite 0 not being
a positive integer — and its statement has no LIMIT clause. -/
theorem select_limit_zero_no_limit_no_error :
    build (.select ⟨"t", "*", "", "", "", false, 0⟩) = .ok ⟨"SELECT * FROM t", []⟩ := rfl

/-- Claim C3 as amended: building a Select never fails — no positivity or
integrality check of the limit is performed — and with `returnAll = false`
the LIMIT clause is appended exactly when the limit value is truthy
(nonzero); a falsy limit silently drops the clause. -/
theorem select_limit_truthiness (s : SelectDesc) :
    build (.select s) = .ok (buildSelect s)
    ∧ (s.returnAll = false → s.limit ≠ 0 →
        (buildSelect s).text = selectCore s ++ " LIMIT " ++ toString s.limit)
    ∧ (s.returnAll = false → s.limit = 0 → (buildSelect s).text = selectCore s)
    ∧ (s.returnAll = true → (buildSelect s).text = selectCore s) := by
  refine ⟨rfl, ?_, ?_, ?_⟩
  · intro h1 h2
    simp [buildSelect, h1, h2]
  · intro h1 h2
    simp [buildSelect, h1, h2]
  · intro h1
    simp [buildSelect, h1]

/-- Witness for C3 as amended: a truthy limit of 10 appends the clause. -/
theorem select_limit_truthiness_witness :
    (buildSelect ⟨"t", "*", "id = $1", "5", "", false, 10⟩).text
      = selectCore ⟨"t", "*", "id = $1", "5", "", false, 10⟩ ++ " LIMIT " ++ toString (10 : Int) :=
  (select_limit_truthiness ⟨"t", "*", "id = $1", "5", "", false, 10⟩).2.1 rfl (by decide)

/-- Claim C4: in a batch of three items where exactly the second fails and
continue-on-fail is on, the run returns three outcomes in input order: the
failure record with the error message in the middle, and on either side
exactly the results the first and third item produce independently. -/
theorem continue_on_fail_isolates_item (exec : Stmt → Except QueryError ExecResult)
    (settings : Option Settings) (resolveDesc : Nat → OpDescriptor)
    (items : List InputItem) (r0 r2 : ItemJson) (e : ItemError)
    (hlen : items.length = 3)
    (hcof : effContinueOnFail settings = true)
    (h0 : (processItem exec (resolveDesc 0)).1 = .ok r0)
    (h1 : (processItem exec (resolveDesc 1)).1 = .error e)
    (h2 : (processItem exec (resolveDesc 2)).1 = .ok r2) :
    (executeNode exec settings resolveDesc items).result
      = .ok [r0, .errorOut e.message e.details, r2]
    ∧ (executeNode exec settings resolveDesc items).processed = 3 := by
  have hn : itemsToProcessCount items = 3 := by simp [itemsToProcessCount, hlen]
  constructor <;>
    simp [executeNode, hn, hcof, show (3 : Nat) = 2 + 1 from rfl,
      show (2 : Nat) = 1 + 1 from rfl, runLoop, h0, h1, h2, errJson]

/-- Witness for C4: a concrete three-item batch whose middle item is an
Update with an empty WHERE clause. -/
theorem continue_on_fail_isolates_item_witness :
    (executeNode (fun _ => .ok ⟨[], 0, "SELECT", []⟩) (some ⟨some true, none, none⟩)
        (fun i => if i = 1 then .update ⟨"users", [("a", .vStr ("1"))], "", "", "*"⟩
                  else .executeQuery ⟨"SELECT 1", ""⟩)
        [⟨[]⟩, ⟨[]⟩, ⟨[]⟩]).result
      = .ok [.execQueryOut [] 0 ("SELECT") [],
             .errorOut (ItemError.validation .updateWhereRequired).message
               (ItemError.validation .updateWhereRequired).details,
             .execQueryOut [] 0 ("SELECT") []] :=
  (continue_on_fail_isolates_item (fun _ => .ok ⟨[], 0, "SELECT", []⟩)
    (some ⟨some true, none, none⟩)
    (fun i => if i = 1 then .update ⟨"users", [("a", .vStr ("1"))], "", "", "*"⟩
              else .executeQuery ⟨"SELECT 1", ""⟩)
    [⟨[]⟩, ⟨[]⟩, ⟨[]⟩] (.execQueryOut [] 0 ("SELECT") []) (.execQueryOut [] 0 ("SELECT") [])
    (.validation .updateWhereRequired) rfl rfl rfl rfl rfl).1

/-- Claim C5: with continue-on-fail off, a batch whose item at index `k`
fails after `k` successes aborts there — the error is raised to the caller
instead of an outcome sequence, exactly `k + 1` items entered the loop, and
the pool is released exactly once on this exit path. -/
theorem fail_fast_aborts_run (exec : Stmt → Except QueryError ExecResult)
    (settings : Option Settings) (resolveDesc : Nat → OpDescriptor)
    (items : List InputItem) (k : Nat) (e : ItemError)
    (hcof : effContinueOnFail settings = false)
    (hk : k < items.length)
    (hfail : (processItem exec (resolveDesc k)).1 = .error e)
    (hok : ∀ j, j < k → ∃ r, (processItem exec (resolveDesc j)).1 = .ok r) :
    (executeNode exec settings resolveDesc items).result = .error e
    ∧ (executeNode exec settings resolveDesc items).processed = k + 1
    ∧ (executeNode exec settings resolveDesc items).poolEnds = 1 := by
  have hn : itemsToProcessCount items = items.length := by
    have : items.length > 0 := Nat.lt_of_le_of_lt (Nat.zero_le k) hk
    simp [itemsToProcessCount, this]
  have habort := runLoop_abort (fun i => (processItem exec (resolveDesc i)).1) k 0
    items.length hk
    (fun j hj => by simpa using hok j hj)
    e (by simpa using hfail)
  simp [executeNode, hn, hcof, habort]

/-- Witness for C5: three items, the second an Update with empty WHERE;
the run aborts after two items with one pool release. -/
theorem fail_fast_aborts_run_witness :
    (executeNode (fun _ => .ok ⟨[], 0, "SELECT", []⟩) (some ⟨some false, none, none⟩)
        (fun i => if i = 1 then .update ⟨"users", [("a", .vStr ("1"))], "", "", "*"⟩
                  else .executeQuery ⟨"SELECT 1", ""⟩)
        [⟨[]⟩, ⟨[]⟩, ⟨[]⟩]).result
      = .error (.validation .updateWhereRequired)
    ∧ (executeNode (fun _ => .ok ⟨[], 0, "SELECT", []⟩) (some ⟨some false, none, none⟩)
        (fun i => if i = 1 then .update ⟨"users", [("a", .vStr ("1"))], "", "", "*"⟩
                  else .executeQuery ⟨"SELECT 1", ""⟩)
        [⟨[]⟩, ⟨[]⟩, ⟨[]⟩]).processed = 2
    ∧ (executeNode (fun _ => .ok ⟨[], 0, "SELECT", []⟩) (some ⟨some false, none, none⟩)
        (fun i => if i = 1 then .update ⟨"users", [("a", .vStr ("1"))], "", "", "*"⟩
                  else .executeQuery ⟨"SELECT 1", ""⟩)
        [⟨[]⟩, ⟨[]⟩, ⟨[]⟩]).poolEnds = 1 :=
  fail_fast_aborts_run (fun _ => .ok ⟨[], 0, "SELECT", []⟩) (some ⟨some false, none, none⟩)
    (fun i => if i = 1 then .update ⟨"users", [("a", .vStr ("1"))], "", "", "*"⟩
              else .executeQuery ⟨"SELECT 1", ""⟩)
    [⟨[]⟩, ⟨[]⟩, ⟨[]⟩] 1 (.validation .updateWhereRequired) rfl (by decide) rfl
    (fun j hj => by
      interval_cases j
      exact ⟨.execQueryOut [] 0 ("SELECT") [], rfl⟩)

/-- Claim C6: the worked Update example builds the expected SQL text and
parameter list, and in general the parameters of any successfully built
Update are the filtered SET values in map iteration order followed by the
comma-split, trimmed WHERE parameters. -/
theorem update_build_example_and_param_order (u : UpdateDesc) (st : Stmt) :
    build (.update ⟨"users", [("status", .vStr ("inactive"))], "id = $2", "123", "*"⟩)
      = .ok ⟨"UPDATE users SET \"status\" = $1 WHERE id = $2 RETURNING *",
             [.vStr ("inactive"), .vStr ("123")]⟩
    ∧ (build (.update u) = .ok st →
        st.params = (filterData u.columnsMap).map Prod.snd
          ++ (splitParams u.whereParams).map Value.vStr) := by
  constructor
  · rfl
  · intro h
    by_cases hw : u.whereClause = ""
    · simp [build, buildUpdate, hw] at h
    · by_cases hm : (filterData u.columnsMap).isEmpty
      · simp [build, buildUpdate, hw, hm] at h
      · simp [build, buildUpdate, hw, hm] at h
        rw [← h]

/-- Witness for C6: the general parameter-order law applied to the worked
example itself. -/
theorem update_build_example_and_param_order_witness :
    Stmt.params ⟨"UPDATE users SET \"status\" = $1 WHERE id = $2 RETURNING *",
        [.vStr ("inactive"), .vStr ("123")]⟩
      = (filterData [("status", .vStr ("inactive"))]).map Prod.snd
        ++ (splitParams ("123")).map Value.vStr :=
  (update_build_example_and_param_order
    ⟨"users", [("status", .vStr ("inactive"))], "id = $2", "123", "*"⟩
    ⟨"UPDATE users SET \"status\" = $1 WHERE id = $2 RETURNING *",
     [.vStr ("inactive"), .vStr ("123")]⟩).2 rfl

/-- Claim C7: an empty input sequence is replaced by exactly one synthesized
item, so the loop body runs exactly once and a normally returned outcome
sequence has length one. -/
theorem empty_input_runs_once (exec : Stmt → Except QueryError ExecResult)
    (settings : Option Settings) (resolveDesc : Nat → OpDescriptor) :
    (executeNode exec settings resolveDesc []).processed = 1
    ∧ ∀ outs, (executeNode exec settings resolveDesc []).result = .ok outs →
        outs.length = 1 := by
  rcases h : (processItem exec (resolveDesc 0)).1 with e | out <;>
    rcases hc : effContinueOnFail settings with _ | _
  case error.false =>
    refine ⟨by simp [executeNode, itemsToProcessCount, runLoop, h, hc], ?_⟩
    intro outs hout
    simp [executeNode, itemsToProcessCount, runLoop, h, hc] at hout
  case error.true =>
    refine ⟨by simp [executeNode, itemsToProcessCount, runLoop, h, hc], ?_⟩
    intro outs hout
    simp [executeNode, itemsToProcessCount, runLoop, h, hc] at hout
    subst hout
    rfl
  case ok.false =>
    refine ⟨by simp [executeNode, itemsToProcessCount, runLoop, h, hc], ?_⟩
    intro outs hout
    simp [executeNode, itemsToProcessCount, runLoop, h, hc] at hout
    subst hout
    rfl
  case ok.true =>
    refine ⟨by simp [executeNode, itemsToProcessCount, runLoop, h, hc], ?_⟩
    intro outs hout
    simp [executeNode, itemsToProcessCount, runLoop, h, hc] at hout
    subst hout
    rfl

/-- Witness for C7 at a concrete operation and driver. -/
theorem empty_input_runs_once_witness :
    (executeNode (fun _ => .ok ⟨[], 0, "SELECT", []⟩) none
        (fun _ => .executeQuery ⟨"SELECT 1", ""⟩) []).processed = 1 :=
  (empty_input_runs_once (fun _ => .ok ⟨[], 0, "SELECT", []⟩) none
    (fun _ => .executeQuery ⟨"SELECT 1", ""⟩)).1

/-- Counterexample to claim C8: on a driver failure `getTables` returns a
one-element sequence (the diagnostic placeholder entry), not an empty
sequence. -/
theorem getTables_failure_not_empty :
    (getTables none (some sampleCreds)
        (fun _ => .error ⟨"ECONNREFUSED", "connection refused"⟩)).length = 1 := rfl

/-- Claim C8 as amended: on any driver failure `getTables` returns, without
raising past its boundary, the single diagnostic entry whose description
carries the error message and whose value is empty. -/
theorem getTables_failure_single_diagnostic (s : Option Settings) (c : Credentials)
    (e : DriverError) (hc : c.host ≠ "") :
    getTables s (some c) (fun _ => .error e)
      = [⟨"Error loading tables - check credentials", "", e.message⟩] := by
  simp [getTables, hc]

/-- Witness for C8 as amended, at the sample credentials and a concrete
connection error. -/
theorem getTables_failure_single_diagnostic_witness :
    getTables none (some sampleCreds) (fun _ => .error ⟨"ECONNREFUSED", "connection refused"⟩)
      = [⟨"Error loading tables - check credentials", "", "connection refused"⟩] :=
  getTables_failure_single_diagnostic none sampleCreds
    ⟨"ECONNREFUSED", "connection refused"⟩ (by decide)

/-- Claim C9: with complete credentials the self-test sends exactly one
query — the NOW/version probe — on a pool capped at one connection with a
5000 ms connection timeout; a driver failure is returned as a translated
message, each known code getting its own text and unknown codes the
generic fallback, and at the sample credentials the eight messages are
pairwise distinct. -/
theorem test_connection_probe_and_error_mapping
    (extractVersion : String → Option String)
    (driver : PoolConfig → String → Except DriverError (List TestRow))
    (data : Credentials) (e : DriverError) (m : String)
    (h : ¬(data.host = "" ∨ data.database = "" ∨ data.user = "" ∨ data.password = "")) :
    (testConnection extractVersion driver data).2
      = [(⟨data.host, effPort data.port, data.database, data.user, data.password,
           data.ssl, 5000, 1⟩, testQueryText)]
    ∧ (testConnection extractVersion (fun _ _ => .error e) data).1
      = ⟨false, testErrorMessage data e⟩
    ∧ testErrorMessage data ⟨"ECONNREFUSED", m⟩
      = "Cannot connect to database server at " ++ data.host ++ ":" ++
          toString (effPort data.port) ++ ". Connection refused."
    ∧ testErrorMessage data ⟨"ENOTFOUND", m⟩
      = "Cannot resolve host: " ++ data.host ++ ". Please check the hostname."
    ∧ testErrorMessage data ⟨"ETIMEDOUT", m⟩
      = "Connection timeout to " ++ data.host ++ ":" ++ toString (effPort data.port) ++
          ". Please check firewall and network settings."
    ∧ testErrorMessage data ⟨"28P01", m⟩
      = "Authentication failed. Invalid username or password."
    ∧ testErrorMessage data ⟨"3D000", m⟩
      = "Database \"" ++ data.database ++ "\" does not exist."
    ∧ testErrorMessage data ⟨"28000", m⟩
      = "Authorization failed. User does not have access to this database."
    ∧ testErrorMessage data ⟨"08001", m⟩
      = "Unable to establish connection. Please check server settings."
    ∧ testErrorMessage data ⟨"XX000", m⟩
      = "Connection failed: " ++ (if m = "" then ("Unknown error") else m)
    ∧ [testErrorMessage sampleCreds ⟨"ECONNREFUSED", "raw"⟩,
       testErrorMessage sampleCreds ⟨"ENOTFOUND", "raw"⟩,
       testErrorMessage sampleCreds ⟨"ETIMEDOUT", "raw"⟩,
       testErrorMessage sampleCreds ⟨"28P01", "raw"⟩,
       testErrorMessage sampleCreds ⟨"3D000", "raw"⟩,
       testErrorMessage sampleCreds ⟨"28000", "raw"⟩,
       testErrorMessage sampleCreds ⟨"08001", "raw"⟩,
       testErrorMessage sampleCreds ⟨"XX000", "raw"⟩].Nodup := by
  refine ⟨?_, ?_, rfl, rfl, rfl, rfl, rfl, rfl, rfl, rfl, by decide⟩
  · unfold testConnection
    rw [if_neg h]
    rcases h1 : driver ⟨data.host, effPort data.port, data.database, data.user, data.password,
        data.ssl, 5000, 1⟩ testQueryText with e0 | rows
    · simp [h1]
    · rcases rows with _ | ⟨r, rest⟩ <;> simp [h1]
  · unfold testConnection
    rw [if_neg h]

/-- Witness for C9 at the sample credentials. -/
theorem test_connection_probe_and_error_mapping_witness :
    (testConnection (fun _ => none) (fun _ _ => .ok []) sampleCreds).2
      = [(⟨"localhost", effPort 5432, "mydb", "admin", "pw", false, 5000, 1⟩,
          testQueryText)] :=
  (test_connection_probe_and_error_mapping (fun _ => none) (fun _ _ => .ok [])
    sampleCreds ⟨"ECONNREFUSED", "raw"⟩ "raw" (by decide)).1

/-- Claim C10: a settings object without a `continueOnFail` entry behaves
exactly like `continueOnFail = false` — the whole run is identical to the
fail-fast run, and a failure of the first item re-raises and aborts after
that single item. -/
theorem missing_continue_on_fail_defaults_false
    (exec : Stmt → Except QueryError ExecResult) (resolveDesc : Nat → OpDescriptor)
    (items : List InputItem) (s : Settings) (e : ItemError)
    (hs : s.continueOnFail = none)
    (h0 : (processItem exec (resolveDesc 0)).1 = .error e) :
    executeNode exec (some s) resolveDesc items
      = executeNode exec (some ⟨some false, s.connectionTimeout, s.ssl⟩) resolveDesc items
    ∧ (executeNode exec (some s) resolveDesc items).result = .error e
    ∧ (executeNode exec (some s) resolveDesc items).processed = 1 := by
  have hcof : effContinueOnFail (some s) = false := by
    simp [effContinueOnFail, hs]
  have habort := runLoop_abort (fun i => (processItem exec (resolveDesc i)).1) 0 0
    (itemsToProcessCount items) (itemsToProcessCount_pos items)
    (fun j hj => absurd hj (Nat.not_lt_zero j))
    e (by simpa using h0)
  refine ⟨?_, ?_, ?_⟩
  · simp only [executeNode, hcof]
    rfl
  · simp [executeNode, hcof, habort]
  · simp [executeNode, hcof, habort]

/-- Witness for C10: settings with no `continueOnFail` entry abort a
two-item batch at its failing first item. -/
theorem missing_continue_on_fail_defaults_false_witness :
    (executeNode (fun _ => .ok ⟨[], 0, "SELECT", []⟩) (some ⟨none, some 2000, none⟩)
        (fun _ => .delete ⟨"users", "", ""⟩) [⟨[]⟩, ⟨[]⟩]).result
      = .error (.validation .deleteWhereRequired)
    ∧ (executeNode (fun _ => .ok ⟨[], 0, "SELECT", []⟩) (some ⟨none, some 2000, none⟩)
        (fun _ => .delete ⟨"users", "", ""⟩) [⟨[]⟩, ⟨[]⟩]).processed = 1 :=
  let h := missing_continue_on_fail_defaults_false (fun _ => .ok ⟨[], 0, "SELECT", []⟩)
    (fun _ => .delete ⟨"users", "", ""⟩) [⟨[]⟩, ⟨[]⟩] ⟨none, some 2000, none⟩
    (.validation .deleteWhereRequired) rfl rfl
  ⟨h.2.1, h.2.2⟩

end PostgresNode
